import Mathlib

/-!
Shallow embedding of the svy-io labelled-vector and writer layer
(`python/svy_io/labelled.py`, `tagged_na.py`, `stata.py`, `spss.py`,
`helpers.py`, `utils.py`) together with proofs about the embedded code.

Python scalars (int/float/str/None) are modelled as `Option Value` with
`Value` a sum of exact rationals (Python numerics under `==`/`<=`, where
`1 == 1.0`) and strings.  Python dicts mapping coded value to label string
are modelled as association lists in insertion order; fallible constructors
and writers return `Except`.  Warnings (Python `warnings.warn`) are modelled
as explicit values returned next to the result.
-/

namespace SvyIO

/-- A non-null Python scalar as used for labelled data: a number (int and
float unified as an exact rational, matching Python numeric `==`/`<=`) or a
string. Booleans are rejected by validation in the source and not modelled. -/
inductive Value where
  | num (q : ℚ)
  | str (s : String)
deriving DecidableEq, Repr

/-- A data cell: `none` is Python `None` (system missing). -/
abbrev CellV := Option Value

/-- `_is_numeric_scalar` on a `Value`. -/
def Value.isNum : Value → Bool
  | .num _ => true
  | .str _ => false

/-- `_is_char_scalar` on a `Value`. -/
def Value.isStr : Value → Bool
  | .num _ => false
  | .str _ => true

/-- Lexicographic `<` on strings by code point, as Python `<` on `str`. -/
def strLt (a b : String) : Bool := decide (a < b)

/-- Python `<=` on `str`: lexicographic by code point. -/
def strLe (a b : String) : Bool := strLt a b || a == b

/-- Python `<=` between two scalars.  Mixed numeric/string comparison raises
`TypeError` in Python; validation guarantees it is never reached, so it is
mapped to `false` here. -/
def Value.le : Value → Value → Bool
  | .num a, .num b => decide (a ≤ b)
  | .str a, .str b => strLe a b
  | _, _ => false

/-- Python `<` between two scalars (same comment as `Value.le` for the
mixed case). -/
def Value.lt : Value → Value → Bool
  | .num a, .num b => decide (a < b)
  | .str a, .str b => strLt a b
  | _, _ => false

/-- `_is_numeric_seq`: every cell is a numeric scalar or `None`. -/
def isNumericSeq (data : List CellV) : Bool :=
  data.all fun c => match c with
    | none => true
    | some v => v.isNum

/-- `_is_string_seq`: every cell is a string scalar or `None`. -/
def isStringSeq (data : List CellV) : Bool :=
  data.all fun c => match c with
    | none => true
    | some v => v.isStr

/-- Python `len(set(l)) != len(l)`: the list has a repeated element. -/
def hasDup [DecidableEq α] : List α → Bool
  | [] => false
  | x :: xs => xs.contains x || hasDup xs

/-- A Python dict mapping coded value to label string, kept in insertion
order (keys may be `None`, as the source allows `None` codes). -/
abbrev LabelDict := List (CellV × String)

/-- Dict lookup: first entry whose key equals `k` (keys of a real dict are
unique, so first = only). -/
def lookupD (d : LabelDict) (k : CellV) : Option String :=
  match d with
  | [] => none
  | (k0, v) :: rest => if k = k0 then some v else lookupD rest k

/-- Keys of a dict, in order (`labels.keys()`). -/
def keysD (d : LabelDict) : List CellV := d.map (·.1)

/-- Python `d[k] = v` on a dict: replace the value in place at the key's
position if the key exists (dict keys are unique, so the first occurrence
is the only one), otherwise append the new pair. -/
def dictInsert : LabelDict → CellV → String → LabelDict
  | [], k, v => [(k, v)]
  | p :: rest, k, v => if p.1 = k then (k, v) :: rest else p :: dictInsert rest k v

/-- Python `dict(items)`: insert the pairs left to right (first occurrence
keeps its position, the last value for a key wins). -/
def toDict (items : List (CellV × String)) : LabelDict :=
  items.foldl (fun d p => dictInsert d p.1 p.2) []

/-- Python `merged = dict(y); merged.update(x)`. -/
def dictUpdate (y x : LabelDict) : LabelDict :=
  x.foldl (fun d p => dictInsert d p.1 p.2) y

/-- The raw `labels` argument accepted by `_normalize_labels`: either a dict
or an ordered sequence of `(code, label)` pairs.  (The source's dynamic
shape check on the pairs is type-level here.) -/
inductive RawLabels where
  | dictL (items : List (CellV × String))
  | pairsL (items : List (CellV × String))
deriving DecidableEq, Repr

/-- The item list of a raw label collection (`labels.items()` resp. the
pair list itself). -/
def RawLabels.items : RawLabels → List (CellV × String)
  | .dictL l => l
  | .pairsL l => l

/-- `_normalize_labels` (labelled.py:48-77).  Returns the normalized dict
together with the list of warnings emitted (`warnings.warn` is modelled as
a returned value).  Duplicate non-`None` codes are a fatal `ValueError`;
duplicate label strings only warn. -/
def normalizeLabels (labels : Option RawLabels) :
    Except String (LabelDict × List String) :=
  match labels with
  | none => .ok ([], [])
  | some raw =>
    let items := raw.items
    let codes := (items.map (·.1)).filterMap id
    if hasDup codes then .error "label codes must be unique"
    else
      let names := items.map (·.2)
      let warns :=
        if hasDup names then
          ["duplicate label strings detected; proceeding (haven allows this)"]
        else []
      .ok (toDict items, warns)

/-- `_validate_labels_match_data_type` (labelled.py:80-107).  A non-dict
collection is a `TypeError`; keys must match the data's type side; both the
non-`None` keys and the label strings must be unique (fatal `ValueError`). -/
def validateLabelsMatchDataType (data : List CellV) (labels : Option RawLabels) :
    Except String Unit :=
  match labels with
  | none => .ok ()
  | some (.pairsL _) => .error "labels must be a dict mapping value -> label (string)"
  | some (.dictL items) =>
    let uniq : Except String Unit :=
      if hasDup ((items.map (·.1)).filterMap id) then .error "labels must be unique"
      else if hasDup (items.map (·.2)) then .error "labels must be unique"
      else .ok ()
    if isNumericSeq data then
      if items.all (fun p => match p.1 with | none => true | some k => k.isNum) then uniq
      else .error "labels must be the same type as data (numeric)"
    else if isStringSeq data then
      if items.all (fun p => match p.1 with | none => true | some k => k.isStr) then uniq
      else .error "labels must be the same type as data (character)"
    else .error "x must be a numeric or a character vector."

/-- A validated `Labelled` vector (labelled.py:173-197): after
`__post_init__`, `labels` is always a dict (`{}` when the input was `None`). -/
structure LabelledV where
  data : List CellV
  labels : LabelDict
  label : Option String
deriving DecidableEq, Repr

/-- `Labelled.__post_init__` (labelled.py:188-197): homogeneity check on the
data, `_validate_labels_match_data_type`, then `_normalize_labels`.  The
`_validate_label` call is a runtime type check on `label`, type-level here.
Warnings from normalization are side effects in Python and are dropped. -/
def mkLabelled (data : List CellV) (labels : Option RawLabels) (label : Option String) :
    Except String LabelledV :=
  if !(isNumericSeq data || isStringSeq data) then
    .error "x must be a numeric or a character vector."
  else
    match validateLabelsMatchDataType data labels with
    | .error e => .error e
    | .ok _ =>
      match normalizeLabels labels with
      | .error e => .error e
      | .ok (dict, _warns) => .ok { data := data, labels := dict, label := label }

/-- A validated `LabelledSPSS` vector (labelled.py:329-341): `Labelled` plus
user-missing specs.  After validation `na_values` entries and range bounds
are never `None`, so they are stored as plain `Value`s. -/
structure LabelledSPSSV where
  data : List CellV
  labels : LabelDict
  label : Option String
  na_values : Option (List Value)
  na_range : Option (Value × Value)
deriving DecidableEq, Repr

/-- `_is_numeric_scalar` applied to a possibly-`None` entry. -/
def cellIsNum (c : CellV) : Bool :=
  match c with
  | some v => v.isNum
  | none => false

/-- `_is_char_scalar` applied to a possibly-`None` entry. -/
def cellIsStr (c : CellV) : Bool :=
  match c with
  | some v => v.isStr
  | none => false

/-- The `na_values` block of `LabelledSPSS.__post_init__`
(labelled.py:345-355): no `None` entries, and entries must match the data's
type side (`_is_numeric_seq(self.data)` decides the side, numeric first). -/
def validateNaValues (data : List CellV) (naValues : Option (List CellV)) :
    Except String (Option (List Value)) :=
  match naValues with
  | none => .ok none
  | some nv =>
    if nv.any (fun c => c.isNone) then
      .error "na_values cannot contain missing values (None)"
    else if isNumericSeq data then
      if nv.all cellIsNum then .ok (some (nv.filterMap id))
      else .error "na_values must match data type (numeric)"
    else
      if nv.all cellIsStr then .ok (some (nv.filterMap id))
      else .error "na_values must match data type (character)"

/-- The `na_range` block of `LabelledSPSS.__post_init__`
(labelled.py:357-374): the pair shape (`len == 2`) is type-level here;
`None` bounds are rejected, bounds must match the data's type side, and the
range must be strictly ascending (`lo < hi`). -/
def validateNaRange (data : List CellV)
    (naRange : Option (Option Value × Option Value)) :
    Except String (Option (Value × Value)) :=
  match naRange with
  | none => .ok none
  | some (lo?, hi?) =>
    match lo?, hi? with
    | some lo, some hi =>
      let asc : Except String (Option (Value × Value)) :=
        if Value.lt lo hi then .ok (some (lo, hi))
        else .error "na_range must be in ascending order"
      if isNumericSeq data then
        if lo.isNum && hi.isNum then asc
        else .error "na_range must match data type (numeric)"
      else
        if lo.isStr && hi.isStr then asc
        else .error "na_range must match data type (character)"
    | _, _ => .error "na_range cannot contain missing values (None)"

/-- `LabelledSPSS.__post_init__` (labelled.py:342-374): run the `Labelled`
validation, then validate `na_values`, then `na_range`. -/
def mkLabelledSPSS (data : List CellV) (labels : Option RawLabels)
    (label : Option String) (naValues : Option (List CellV))
    (naRange : Option (Option Value × Option Value)) :
    Except String LabelledSPSSV :=
  match mkLabelled data labels label with
  | .error e => .error e
  | .ok base =>
    match validateNaValues data naValues with
    | .error e => .error e
    | .ok nv =>
      match validateNaRange data naRange with
      | .error e => .error e
      | .ok nr =>
        .ok { data := base.data, labels := base.labels, label := base.label,
              na_values := nv, na_range := nr }

/-- `LabelledSPSS.is_na` (labelled.py:376-394): a cell is missing when it is
`None`, or a member of `na_values`, or a non-`None` value inside the
inclusive range `lo <= v <= hi`.  The source's three sequential passes over
`miss` combine to this pointwise disjunction. -/
def isNa (x : LabelledSPSSV) : List Bool :=
  x.data.map fun c =>
    c.isNone
    || (match x.na_values with
        | some nv => match c with
          | some v => nv.contains v
          | none => false
        | none => false)
    || (match x.na_range with
        | some (lo, hi) => match c with
          | some v => lo.le v && v.le hi
          | none => false
        | none => false)

/-- The local `is_missing_in` helper of `LabelledSPSS.cast_to`
(labelled.py:518-527), on a non-`None` value (the caller skips `None`).
`if na_values and val in na_values` tests truthiness of the list first. -/
def isMissingIn (val : Value) (naValues : Option (List Value))
    (naRange : Option (Value × Value)) : Bool :=
  (match naValues with
   | some nv => !(nv.isEmpty) && nv.contains val
   | none => false)
  || (match naRange with
      | some (lo, hi) => lo.le val && val.le hi
      | none => false)

/-- The raise sites reachable from `LabelledSPSS.cast_to`: its two explicit
lossy-cast checks, plus any `TypeError`/`ValueError` raised when the result
is built via the `LabelledSPSS(...)` dataclass constructor, which re-runs
`__post_init__` (labelled.py:557-563). -/
inductive CastErr where
  | lossyLabel (val : CellV)
  | lossyMissing (val : Value)
  | constructorRaise (msg : String)
deriving DecidableEq, Repr

/-- The `removed_labels` set of check 1 of `cast_to`: codes labelled at the
source but absent from the template dict, scanned only when the source has
labels (on validated vectors `template.labels` is always a dict, so the
source's `template.labels is not None` guard is always true). -/
def removedKeys (self template : LabelledSPSSV) : List CellV :=
  if !(self.labels.isEmpty) then
    (keysD self.labels).filter (fun k => !((keysD template.labels).contains k))
  else []

/-- The check-2 predicate of `cast_to` on one cell: user-missing in the
source specs but not in the template's (`None` is skipped by the loop). -/
def lossyMissingCell (self template : LabelledSPSSV) (c : CellV) : Bool :=
  match c with
  | none => false
  | some v =>
    isMissingIn v self.na_values self.na_range
      && !(isMissingIn v template.na_values template.na_range)

/-- The `label` argument `cast_to` passes to the result's constructor:
Python `self.label or template.label` (the empty string is falsy). -/
def castResultLabel (self template : LabelledSPSSV) : Option String :=
  match self.label with
  | some l => if l = "" then template.label else some l
  | none => template.label

/-- `LabelledSPSS.cast_to` (labelled.py:511-563).  Check 1: a data value
whose label code was removed by the template dict is a lossy cast.
Check 2: a data value user-missing in the source but not in the template is
a lossy cast.  Otherwise the result is built via
`LabelledSPSS(data=list(self.data), labels=template.labels, ...)`, i.e. the
dataclass constructor re-runs `__post_init__` on the new field combination
and can itself raise (e.g. `TypeError` when the template's labels or specs
do not match the source data's type side); `label` follows Python
`self.label or template.label` (the empty string is falsy).  On validated
vectors `template.labels` is always a dict, so the source's
`template.labels is not None` guard picks the template's dict. -/
def castTo (self template : LabelledSPSSV) : Except CastErr LabelledSPSSV :=
  match self.data.find? (fun c =>
      !((removedKeys self template).isEmpty) && (removedKeys self template).contains c) with
  | some c => .error (.lossyLabel c)
  | none =>
    match self.data.find? (lossyMissingCell self template) with
    | some (some v) => .error (.lossyMissing v)
    | _ =>
      match mkLabelledSPSS self.data (some (.dictL template.labels))
          (castResultLabel self template)
          (template.na_values.map (fun l => l.map some))
          (template.na_range.map (fun p => (some p.1, some p.2))) with
      | .error e => .error (.constructorRaise e)
      | .ok x => .ok x

/-- The diagnostic payload of `_combine_labels`' warning: the codes listed
in the message and, when more than 3 collide, the reported total. -/
structure ConflictDiag where
  listed : List CellV
  total : Option Nat
deriving DecidableEq, Repr

/-- The conflict scan of `_combine_labels` (labelled.py:148-151): codes
present in both dicts whose label strings differ, in the left dict's order. -/
def conflictsOf (x y : LabelDict) : List CellV :=
  x.filterMap fun p => match lookupD y p.1 with
    | some yl => if yl ≠ p.2 then some p.1 else none
    | none => none

/-- `_combine_labels` (labelled.py:135-167): if either side is empty the
other is returned; otherwise the LEFT dict is returned unchanged, with a
non-fatal "Conflicting labels" warning (modelled structurally) when any
common code maps to different strings.  The message lists all conflicting
codes when there are at most 3, else the first two plus the total count. -/
def combineLabelsWarn (x y : LabelDict) : LabelDict × Option ConflictDiag :=
  if y.isEmpty then (x, none)
  else if x.isEmpty then (y, none)
  else
    let conflicts := conflictsOf x y
    let diag :=
      if conflicts.isEmpty then none
      else if conflicts.length ≤ 3 then some ⟨conflicts, none⟩
      else some ⟨conflicts.take 2, some conflicts.length⟩
    (x, diag)

/-- `combine_labels` (utils.py:22-40): empty fast paths, otherwise
`merged = dict(y); merged.update(x)` so the left operand wins on common
codes while every code of either side is kept.  No warning is emitted. -/
def combineLabelsU (x y : LabelDict) : LabelDict :=
  if x.isEmpty then (if y.isEmpty then [] else y)
  else if y.isEmpty then x
  else dictUpdate y x

/-- The result of `LabelledSPSS.concat`: a `LabelledSPSS`, or a plain
`Labelled` (which carries no user-missing specification) after downgrade. -/
inductive ConcatResult where
  | spss (x : LabelledSPSSV)
  | plain (x : LabelledV)
deriving DecidableEq, Repr

/-- `LabelledSPSS.concat` (labelled.py:435-492) for a list of
`LabelledSPSS` inputs (the `isinstance` branches for bare lists collapse).
Data is concatenated in order; labels are folded with `_combine_labels`
from the first vector's; the variable label is the first vector's.  If any
vector's `na_values` or `na_range` differs from the first's, the result is
rebuilt as a plain `Labelled`, else as a `LabelledSPSS` with the first
vector's specs.  Both constructors re-run `__post_init__`, which can fail. -/
def concatV (vectors : List LabelledSPSSV) : Except String ConcatResult :=
  match vectors with
  | [] => .ok (.spss { data := [], labels := [], label := none,
                       na_values := none, na_range := none })
  | first :: rest =>
    let allData := (vectors.map (·.data)).flatten
    let combined := rest.foldl
      (fun acc v => if !(v.labels.isEmpty) then (combineLabelsWarn acc v.labels).1 else acc)
      first.labels
    let naValuesMatch := vectors.all (fun v => v.na_values == first.na_values)
    let naRangeMatch := vectors.all (fun v => v.na_range == first.na_range)
    if !naValuesMatch || !naRangeMatch then
      match mkLabelled allData (some (.dictL combined)) first.label with
      | .error e => .error e
      | .ok x => .ok (.plain x)
    else
      match mkLabelledSPSS allData (some (.dictL combined)) first.label
          (first.na_values.map (fun l => l.map some))
          (first.na_range.map (fun p => (some p.1, some p.2))) with
      | .error e => .error e
      | .ok x => .ok (.spss x)

/-- A cell of a DataFrame column on the Stata write/read path: `null`
(Polars null / Python `None`), a `TaggedNA` carrying its tag, or an
ordinary value. -/
inductive Cell where
  | null
  | tagged (tag : String)
  | val (v : Value)
deriving DecidableEq, Repr

/-- The per-column loop of `_extract_tagged_missings` (stata.py:391-417),
with the running index threaded: each `TaggedNA` cell is replaced by `None`
and its `(row, tag)` recorded, rows in increasing order. -/
def extractTaggedGo (i : ℕ) : List Cell → List Cell × List (ℕ × String)
  | [] => ([], [])
  | c :: cs =>
    let rec_ := extractTaggedGo (i + 1) cs
    match c with
    | .tagged t => (.null :: rec_.1, (i, t) :: rec_.2)
    | c => (c :: rec_.1, rec_.2)

/-- `_extract_tagged_missings` on one column: the scrubbed cells plus the
`rows` and `tags` lists of its spec (the Python loop appends to `rows` and
`tags` in lockstep, i.e. builds the zipped pairs).  When no cell changed
the source emits no spec; here the spec lists are simply empty. -/
def extractTaggedCol (vals : List Cell) : List Cell × List ℕ × List String :=
  ((extractTaggedGo 0 vals).1,
   (extractTaggedGo 0 vals).2.map (·.1),
   (extractTaggedGo 0 vals).2.map (·.2))

/-- Branch A of `_hydrate_tagged_na` (stata.py:52-58) for one column's
spec: guarded by Python truthiness (`rows and tags`) and equal lengths;
each in-bounds row is set to `TaggedNA(tag)`. -/
def hydrateTaggedCol (vals : List Cell) (rows : List ℕ) (tags : List String) :
    List Cell :=
  if !(rows.isEmpty) && !(tags.isEmpty) && rows.length == tags.length then
    (rows.zip tags).foldl
      (fun acc rt => if rt.1 < acc.length then acc.set rt.1 (.tagged rt.2) else acc)
      vals
  else vals

/-- A column of a DataFrame on the writer paths: text (Utf8) columns carry
optional strings, numeric columns optional numbers.  Only text columns are
scanned for interior NULs. -/
inductive ColData where
  | text (vals : List (Option String))
  | numeric (vals : List (Option ℚ))
deriving DecidableEq, Repr

/-- A named DataFrame column. -/
structure DFCol where
  name : String
  col : ColData
deriving DecidableEq, Repr

/-- Python `"\x00" in v` for a one-character needle: the string contains
the NUL character (scanned over the string's character list). -/
def strHasNul (s : String) : Bool := s.data.any (fun c => c = Char.ofNat 0)

/-- `_columns_with_interior_nul` (stata.py:445-454): names of the Utf8
columns containing a string with an embedded NUL, in column order. -/
def columnsWithInteriorNul (df : List DFCol) : List String :=
  df.filterMap fun c => match c.col with
    | .text vs =>
      if vs.any (fun s? => match s? with | some s => strHasNul s | none => false) then
        some c.name
      else none
    | .numeric _ => none

/-- The raise sites of `write_dta` that can run before the native writer is
invoked (with `value_labels=None`, whose key check is then skipped). -/
inductive DtaErr where
  | namesTooLong (names : List String)
  | badNamesOldVersion (names : List String)
  | fileLabelTooLong
  | badStrlThreshold
  | strlNeeded (col : String)
  | interiorNul (cols : List String)
deriving DecidableEq, Repr

/-- The regex `^[A-Za-z_][A-Za-z0-9_]*$` of `_STATA_NAME_RE` (ASCII). -/
def stataNameOk (s : String) : Bool :=
  match s.data with
  | [] => false
  | c :: rest => (c.isAlpha || c = '_') && rest.all (fun ch => ch.isAlphanum || ch = '_')

/-- `_validate_dta_names_and_labels` (stata.py:258-301) with
`value_labels=None`: column names at most 32 characters; for Stata < 14
names must match the Stata name regex; a file label over 80 characters is
rejected. -/
def validateDtaNamesAndLabels (df : List DFCol) (versionHuman : ℤ)
    (fileLabel : Option String) : Except DtaErr Unit :=
  let tooLong := (df.map (·.name)).filter (fun n => n.length > 32)
  if !(tooLong.isEmpty) then .error (.namesTooLong tooLong)
  else
    let bad := if versionHuman < 14 then (df.map (·.name)).filter (fun n => !stataNameOk n)
      else []
    if !(bad.isEmpty) then .error (.badNamesOldVersion bad)
    else match fileLabel with
      | some l => if l.length > 80 then .error .fileLabelTooLong else .ok ()
      | none => .ok ()

/-- `_ensure_strl_policy` (stata.py:304-319): threshold within `[0, 2045]`;
for Stata < 13 no string column may hold a string longer than 244 UTF-8
bytes (the first offending column raises). -/
def ensureStrlPolicy (df : List DFCol) (versionHuman strlThreshold : ℤ) :
    Except DtaErr Unit :=
  if !(0 ≤ strlThreshold && strlThreshold ≤ 2045) then .error .badStrlThreshold
  else if versionHuman ≥ 13 then .ok ()
  else
    match df.find? (fun c => match c.col with
        | .text vs =>
          (vs.map (fun s? => match s? with | some s => s.utf8ByteSize | none => 0)).foldl
            max 0 > 244
        | .numeric _ => false) with
    | some c => .error (.strlNeeded c.name)
    | none => .ok ()

/-- The validation phase of `write_dta` (stata.py:489-509) that runs before
`native.df_write_dta_file` is invoked: name/label validation, strL policy,
then the interior-NUL scan (which raises naming the offending columns).
`.ok` means the pipeline transformations run and the native writer is
reached. -/
def writeDtaPreNative (df : List DFCol) (versionHuman : ℤ)
    (fileLabel : Option String) (strlThreshold : ℤ) : Except DtaErr (List DFCol) :=
  match validateDtaNamesAndLabels df versionHuman fileLabel with
  | .error e => .error e
  | .ok _ =>
    match ensureStrlPolicy df versionHuman strlThreshold with
    | .error e => .error e
    | .ok _ =>
      let nulCols := columnsWithInteriorNul df
      if !(nulCols.isEmpty) then .error (.interiorNul nulCols)
      else .ok df

/-- The raise sites of `write_sav` that run before
`native.df_write_sav_file` is invoked (spss.py:443-530). -/
inductive SavErr where
  | badCompress
  | duplicateName (name : String)
  | invalidName (name : String)
  | reservedName (name : String)
deriving DecidableEq, Repr

/-- `_SPSS_RESERVED` (spss.py:417-431). -/
def spssReserved : List String :=
  ["ALL", "AND", "BY", "EQ", "GE", "GT", "LE", "LT", "NE", "NOT", "OR", "TO", "WITH"]

/-- `_is_valid_varname` (spss.py:434-440): non-empty, at most 64 UTF-8
bytes, first character alphabetic, the rest alphanumeric or underscore
(ASCII classification, matching the names the claims exercise). -/
def isValidVarname (name : String) : Bool :=
  if name = "" || name.utf8ByteSize > 64 then false
  else match name.data with
    | [] => false
    | c :: rest => c.isAlpha && rest.all (fun ch => ch.isAlphanum || ch = '_')

/-- `str.casefold()` / `str.upper()` of an ASCII variable name, as used by
`_validate_sav` (character-by-character case mapping). -/
def strLower (s : String) : String := ⟨s.data.map Char.toLower⟩

/-- See `strLower`. -/
def strUpper (s : String) : String := ⟨s.data.map Char.toUpper⟩

/-- The per-name loop of `_validate_sav` (spss.py:443-459):
case-insensitive duplicate check, varname validity, reserved words. -/
def validateSavGo (seen : List String) : List String → Except SavErr Unit
  | [] => .ok ()
  | n :: rest =>
    let key := strLower n
    if seen.contains key then .error (.duplicateName n)
    else if !isValidVarname n then .error (.invalidName n)
    else if spssReserved.contains (strUpper n) then .error (.reservedName n)
    else validateSavGo (key :: seen) rest

/-- The validation phase of `write_sav` (spss.py:462-530) that runs before
`native.df_write_sav_file` is invoked: the `compress` check and
`_validate_sav`.  The remaining steps (timezone adjustment, categorical
conversion, IPC serialization) transform values without raising; there is
no interior-NUL scan on this path, so `.ok` means the native writer is
reached. -/
def writeSavPreNative (df : List DFCol) (compress : String) :
    Except SavErr (List DFCol) :=
  if !(compress = "byte" || compress = "none" || compress = "zsav") then
    .error .badCompress
  else
    match validateSavGo [] (df.map (·.name)) with
    | .error e => .error e
    | .ok _ => .ok df

/-- The raw `n_max` argument of `_normalize_n_max` (helpers.py:11-48): a
scalar is a bool, an integer (covering numpy integers), or a value of any
other type (represented by a description of that value). -/
inductive NMaxScalar where
  | bool (b : Bool)
  | int (n : ℤ)
  | other (desc : String)
deriving DecidableEq, Repr

/-- The raw `n_max` argument: `None`, a list/tuple of scalars, or a bare
scalar. -/
inductive NMaxInput where
  | null
  | seq (l : List NMaxScalar)
  | scalar (s : NMaxScalar)
deriving DecidableEq, Repr

/-- The scalar tail of `_normalize_n_max` (helpers.py:39-48): a bool is
coerced to 0/1, a non-integer is a `TypeError`, a negative integer means
unlimited (`none`), otherwise the integer itself. -/
def normalizeNMaxScalar : NMaxScalar → Except String (Option ℤ)
  | .bool b => .ok (some (if b then 1 else 0))
  | .int n => if n < 0 then .ok none else .ok (some n)
  | .other _ => .error "n_max must be an integer"

/-- `_normalize_n_max` (helpers.py:11-48): `None` means unlimited; a
list/tuple must have length 1 and is unwrapped; then the scalar tail runs. -/
def normalizeNMax : NMaxInput → Except String (Option ℤ)
  | .null => .ok none
  | .seq l =>
    match l with
    | [s] => normalizeNMaxScalar s
    | _ => .error "n_max must have length 1"
  | .scalar s => normalizeNMaxScalar s

/-- `.ok`-ness of an `Except`, for stating success/failure of embedded
fallible code. -/
def isOkE : Except ε α → Bool
  | .ok _ => true
  | .error _ => false

/- ---------- helper lemmas ---------- -/

theorem Value.le_refl (v : Value) : v.le v = true := by
  cases v with
  | num q => simp [Value.le]
  | str s => simp [Value.le, strLe]

theorem isOkE_error (e : ε) : isOkE (α := α) (.error e) = false := rfl

theorem isOkE_ok (a : α) : isOkE (ε := ε) (.ok a) = true := rfl

/- ---------- C9 ---------- -/

/-- Claim C9 (confirmed): `_normalize_n_max` maps null to unlimited, unwraps
a single-element sequence and rejects any other sequence length, coerces a
boolean to 0/1, accepts any integer, maps every negative value to
unlimited and 0 to 0, and raises a `TypeError` for any other input type. -/
theorem c9_normalize_n_max_contract :
    normalizeNMax .null = .ok none
    ∧ (∀ s : NMaxScalar, normalizeNMax (.seq [s]) = normalizeNMax (.scalar s))
    ∧ (∀ l : List NMaxScalar, l.length ≠ 1 →
        normalizeNMax (.seq l) = .error "n_max must have length 1")
    ∧ (∀ b : Bool, normalizeNMax (.scalar (.bool b)) = .ok (some (if b then 1 else 0)))
    ∧ (∀ n : ℤ, n < 0 → normalizeNMax (.scalar (.int n)) = .ok none)
    ∧ (∀ n : ℤ, 0 ≤ n → normalizeNMax (.scalar (.int n)) = .ok (some n))
    ∧ (∀ d : String, normalizeNMax (.scalar (.other d)) = .error "n_max must be an integer") := by
  refine ⟨rfl, fun s => rfl, ?_, fun b => rfl, ?_, ?_, fun d => rfl⟩
  · intro l hl
    match l with
    | [] => rfl
    | [s] => exact absurd rfl hl
    | a :: b :: t => rfl
  · intro n hn
    simp [normalizeNMax, normalizeNMaxScalar, hn]
  · intro n hn
    simp [normalizeNMax, normalizeNMaxScalar, not_lt.mpr hn]

/-- Witness for C9 at concrete inputs. -/
theorem c9_witness :
    normalizeNMax (.seq []) = .error "n_max must have length 1"
    ∧ normalizeNMax (.scalar (.int (-5))) = .ok none
    ∧ normalizeNMax (.scalar (.int 0)) = .ok (some 0) :=
  ⟨c9_normalize_n_max_contract.2.2.1 [] (by decide),
   c9_normalize_n_max_contract.2.2.2.2.1 (-5) (by decide),
   c9_normalize_n_max_contract.2.2.2.2.2.1 0 (by decide)⟩

/- ---------- C5 ---------- -/

/-- Claim C5 (confirmed): with a declared range `[lo, hi]`, `is_na` marks a
non-null value missing whenever `lo <= v <= hi` (boundaries included, as
the third conjunct shows for `lo` and `hi` themselves), and a non-null
value outside the range that is not in `na_values` is not missing. -/
theorem c5_range_inclusivity (x : LabelledSPSSV) (lo hi : Value)
    (hr : x.na_range = some (lo, hi)) (i : ℕ) (v : Value)
    (hv : x.data.get? i = some (some v)) :
    ((lo.le v && v.le hi) = true → (isNa x).get? i = some true)
    ∧ ((lo.le v && v.le hi) = false →
        (x.na_values.getD []).contains v = false → (isNa x).get? i = some false)
    ∧ (lo.le hi = true → (lo.le lo && lo.le hi) = true ∧ (lo.le hi && hi.le hi) = true) := by
  refine ⟨?_, ?_, ?_⟩
  · intro hin
    simp only [isNa, List.get?_map, hv, Option.map_some', hr]
    simp [hin]
  · intro hout hnv
    simp only [isNa, List.get?_map, hv, Option.map_some', hr]
    cases hx : x.na_values with
    | none => simp [hout]
    | some nv =>
      rw [hx] at hnv
      simp only [Option.getD_some] at hnv
      have hmem : v ∉ nv := by simpa using hnv
      simp [hout, hmem]
  · intro hlh
    exact ⟨by simp [Value.le_refl, hlh], by simp [Value.le_refl, hlh]⟩

/-- A concrete vector with valid range `[2, 4]`, holding both bounds and an
outside value, used by the C5 witness. -/
def c5Vec : LabelledSPSSV :=
  { data := [some (.num 2), some (.num 4), some (.num 5)], labels := [],
    label := none, na_values := none, na_range := some (.num 2, .num 4) }

/-- Witness for C5: on `c5Vec` both bounds are classified missing and the
value 5 is not. -/
theorem c5_witness :
    (isNa c5Vec).get? 0 = some true ∧ (isNa c5Vec).get? 2 = some false :=
  ⟨(c5_range_inclusivity c5Vec (.num 2) (.num 4) rfl 0 (.num 2) rfl).1 (by decide),
   (c5_range_inclusivity c5Vec (.num 2) (.num 4) rfl 2 (.num 5) rfl).2.1 (by decide) (by decide)⟩

/- ---------- C6 ---------- -/

/-- Claim C6 (confirmed): a null range bound is rejected; a present pair is
accepted exactly when both bounds match the data's type side and are
strictly ascending (`lo < hi`, so `lo == hi` and `lo > hi` are rejected);
any range-validation failure makes the whole `LabelledSPSS` construction
fail (so nothing is deferred to classification time). -/
theorem c6_range_wellformedness :
    (∀ (data : List CellV) (lo? hi? : Option Value), (lo? = none ∨ hi? = none) →
        validateNaRange data (some (lo?, hi?))
          = .error "na_range cannot contain missing values (None)")
    ∧ (∀ (data : List CellV) (lo hi : Value),
        isOkE (validateNaRange data (some (some lo, some hi))) = true
          ↔ ((if isNumericSeq data then lo.isNum && hi.isNum
              else lo.isStr && hi.isStr) = true ∧ Value.lt lo hi = true))
    ∧ (∀ (data : List CellV) (labels : Option RawLabels) (label : Option String)
        (nv : Option (List CellV)) (nr : Option (Option Value × Option Value)),
        isOkE (validateNaRange data nr) = false →
        isOkE (mkLabelledSPSS data labels label nv nr) = false) := by
  refine ⟨?_, ?_, ?_⟩
  · intro data lo? hi? h
    rcases h with h | h
    · subst h
      cases hi? <;> rfl
    · subst h
      cases lo? <;> rfl
  · intro data lo hi
    simp only [validateNaRange]
    by_cases hn : isNumericSeq data = true
    · simp only [hn, if_true]
      by_cases ht : (lo.isNum && hi.isNum) = true
      · by_cases ha : Value.lt lo hi = true
        · simp [ht, ha, isOkE]
        · simp [ht, ha, isOkE]
      · simp [ht, isOkE]
    · simp only [Bool.not_eq_true] at hn
      simp only [hn, Bool.false_eq_true, if_false]
      by_cases ht : (lo.isStr && hi.isStr) = true
      · by_cases ha : Value.lt lo hi = true
        · simp [ht, ha, isOkE]
        · simp [ht, ha, isOkE]
      · simp [ht, isOkE]
  · intro data labels label nv nr h
    unfold mkLabelledSPSS
    cases hb : mkLabelled data labels label with
    | error e => rfl
    | ok base =>
      cases hv : validateNaValues data nv with
      | error e => rfl
      | ok nvv =>
        cases hr : validateNaRange data nr with
        | error e => rfl
        | ok x =>
          rw [hr] at h
          exact absurd h (by simp [isOkE])

/-- Witness for C6: for numeric data, a missing bound is rejected, `lo == hi`
is rejected, `[2, 1]` is rejected, `[1, 2]` is accepted, and a failing range
makes construction fail. -/
theorem c6_witness :
    validateNaRange [some (.num 1)] (some (none, some (.num 1)))
      = .error "na_range cannot contain missing values (None)"
    ∧ isOkE (validateNaRange [some (.num 1)] (some (some (.num 2), some (.num 2)))) = false
    ∧ isOkE (validateNaRange [some (.num 1)] (some (some (.num 2), some (.num 1)))) = false
    ∧ isOkE (validateNaRange [some (.num 1)] (some (some (.num 1), some (.num 2)))) = true
    ∧ isOkE (mkLabelledSPSS [some (.num 1)] none none none
        (some (some (.num 2), some (.num 2)))) = false := by
  refine ⟨c6_range_wellformedness.1 [some (.num 1)] none (some (.num 1)) (Or.inl rfl),
    ?_, ?_,
    (c6_range_wellformedness.2.1 [some (.num 1)] (.num 1) (.num 2)).mpr (by decide),
    c6_range_wellformedness.2.2 [some (.num 1)] none none none
      (some (some (.num 2), some (.num 2))) (by decide)⟩
  · by_contra hcon
    rw [Bool.not_eq_false] at hcon
    have := (c6_range_wellformedness.2.1 [some (.num 1)] (.num 2) (.num 2)).mp hcon
    exact absurd this.2 (by decide)
  · by_contra hcon
    rw [Bool.not_eq_false] at hcon
    have := (c6_range_wellformedness.2.1 [some (.num 1)] (.num 2) (.num 1)).mp hcon
    exact absurd this.2 (by decide)

/- ---------- C1 ---------- -/

/-- Setting index `pre.length` in `pre ++ c :: cs` replaces `c`. -/
theorem set_append_length (pre : List Cell) (c c' : Cell) (cs : List Cell) :
    (pre ++ c :: cs).set pre.length c' = pre ++ c' :: cs := by
  induction pre with
  | nil => rfl
  | cons p ps ih => simp [List.set, ih]

/-- The hydration fold restores every extracted tagged cell: extracting at
offset `pre.length` and folding the recorded `(row, tag)` pairs back over
the scrubbed cells (below the untouched prefix `pre`) recovers the input. -/
theorem hydrate_fold_extract (cs : List Cell) : ∀ pre : List Cell,
    ((extractTaggedGo pre.length cs).2).foldl
      (fun acc rt => if rt.1 < acc.length then acc.set rt.1 (.tagged rt.2) else acc)
      (pre ++ (extractTaggedGo pre.length cs).1) = pre ++ cs := by
  induction cs with
  | nil => intro pre; simp [extractTaggedGo]
  | cons c cs ih =>
    intro pre
    have hlen : (pre ++ [c]).length = pre.length + 1 := by simp
    cases c with
    | tagged t =>
      show ((pre.length, t) :: (extractTaggedGo (pre.length + 1) cs).2).foldl _
        (pre ++ .null :: (extractTaggedGo (pre.length + 1) cs).1) = pre ++ .tagged t :: cs
      rw [List.foldl_cons]
      have hlt : pre.length < (pre ++ Cell.null :: (extractTaggedGo (pre.length + 1) cs).1).length := by
        simp
      rw [if_pos hlt, set_append_length]
      have := ih (pre ++ [Cell.tagged t])
      rw [hlen] at this
      simpa using this
    | null =>
      show ((extractTaggedGo (pre.length + 1) cs).2).foldl _
        (pre ++ .null :: (extractTaggedGo (pre.length + 1) cs).1) = pre ++ .null :: cs
      have := ih (pre ++ [Cell.null])
      rw [hlen] at this
      simpa using this
    | val v =>
      show ((extractTaggedGo (pre.length + 1) cs).2).foldl _
        (pre ++ .val v :: (extractTaggedGo (pre.length + 1) cs).1) = pre ++ .val v :: cs
      have := ih (pre ++ [Cell.val v])
      rw [hlen] at this
      simpa using this

/-- Claim C1 (confirmed): extracting tagged missings on the write path and
re-hydrating with the recorded spec restores the original column exactly;
a tagged cell is distinct from null and from every ordinary value. -/
theorem zip_map_fst_snd_pairs (l : List (ℕ × String)) :
    (l.map (·.1)).zip (l.map (·.2)) = l := by
  have h := List.zip_unzip l
  rw [List.unzip_eq_map] at h
  exact h

theorem c1_tagged_roundtrip (vals : List Cell) :
    hydrateTaggedCol (extractTaggedCol vals).1 (extractTaggedCol vals).2.1
        (extractTaggedCol vals).2.2 = vals
    ∧ (∀ t : String, Cell.tagged t ≠ Cell.null)
    ∧ (∀ (t : String) (v : Value), Cell.tagged t ≠ Cell.val v) := by
  refine ⟨?_, ?_, ?_⟩
  case refine_2 => intro t h; exact Cell.noConfusion h
  case refine_3 => intro t v h; exact Cell.noConfusion h
  have hmain := hydrate_fold_extract vals []
  simp only [List.length_nil, List.nil_append] at hmain
  unfold hydrateTaggedCol extractTaggedCol
  by_cases hp : (extractTaggedGo 0 vals).2 = []
  · rw [hp] at hmain ⊢
    simpa using hmain
  · have hne : ((extractTaggedGo 0 vals).2.map (·.1)).isEmpty = false := by
      simp [List.isEmpty_iff, hp]
    have hne2 : ((extractTaggedGo 0 vals).2.map (·.2)).isEmpty = false := by
      simp [List.isEmpty_iff, hp]
    simp only [hne, hne2, List.length_map, beq_self_eq_true, Bool.not_false,
      Bool.and_self, Bool.true_and, Bool.and_true, if_true, zip_map_fst_snd_pairs]
    exact hmain

/- ---------- C7 ---------- -/

/-- With duplicate label strings, `_validate_labels_match_data_type` can
only fail (whatever branch is taken). -/
theorem validateLabels_dup_strings_errors (data : List CellV)
    (items : List (CellV × String)) (h : hasDup (items.map (·.2)) = true) :
    ∃ e, validateLabelsMatchDataType data (some (.dictL items)) = .error e := by
  simp only [validateLabelsMatchDataType]
  cases hk : hasDup ((items.map (·.1)).filterMap id) <;>
    simp only [hk, h, if_true, Bool.false_eq_true, if_false] <;>
    (repeat' split) <;> exact ⟨_, rfl⟩

/-- Counterexample for C7: the claim says a `Labelled` constructed with
duplicate label *strings* succeeds with only a warning; on the code,
construction fails fatally (`_validate_labels_match_data_type` runs before
`_normalize_labels` and raises `ValueError`). -/
theorem c7_counterexample :
    mkLabelled [some (.num 1)]
        (some (.dictL [(some (.num 1), "A"), (some (.num 2), "A")])) none
      = .error "labels must be unique" := by
  rfl

/-- Claim C7 amended: `_normalize_labels` alone rejects non-unique coded
keys (ignoring null) fatally and only warns on duplicate label strings;
but constructing a `Labelled` vector validates labels first, so duplicate
label strings make the construction fail fatally instead of warning. -/
theorem c7_amended :
    (∀ items : List (CellV × String),
        hasDup ((items.map (·.1)).filterMap id) = true →
        normalizeLabels (some (.pairsL items)) = .error "label codes must be unique")
    ∧ (∀ items : List (CellV × String),
        hasDup ((items.map (·.1)).filterMap id) = false →
        hasDup (items.map (·.2)) = true →
        normalizeLabels (some (.pairsL items))
          = .ok (toDict items,
              ["duplicate label strings detected; proceeding (haven allows this)"]))
    ∧ (∀ (data : List CellV) (items : List (CellV × String)) (label : Option String),
        hasDup (items.map (·.2)) = true →
        isOkE (mkLabelled data (some (.dictL items)) label) = false) := by
  refine ⟨?_, ?_, ?_⟩
  · intro items h
    rw [List.filterMap_map, Function.id_comp] at h
    simp [normalizeLabels, RawLabels.items, h]
  · intro items hk hs
    rw [List.filterMap_map, Function.id_comp] at hk
    simp [normalizeLabels, RawLabels.items, hk, hs]
  · intro data items label h
    unfold mkLabelled
    by_cases hhom : (!(isNumericSeq data || isStringSeq data)) = true
    · simp [hhom, isOkE]
    · simp only [Bool.not_eq_true] at hhom
      obtain ⟨e, he⟩ := validateLabels_dup_strings_errors data items h
      simp [hhom, he, isOkE]

/-- Witness for C7 at concrete label collections. -/
theorem c7_witness :
    normalizeLabels (some (.pairsL [(some (.num 1), "x"), (some (.num 1), "y")]))
      = .error "label codes must be unique"
    ∧ normalizeLabels (some (.pairsL [(some (.num 1), "A"), (some (.num 2), "A")]))
      = .ok ([(some (.num 1), "A"), (some (.num 2), "A")],
          ["duplicate label strings detected; proceeding (haven allows this)"])
    ∧ isOkE (mkLabelled [some (.num 1)]
        (some (.dictL [(some (.num 1), "A"), (some (.num 2), "A")])) none) = false := by
  refine ⟨c7_amended.1 _ (by decide), ?_, c7_amended.2.2 _ _ none (by decide)⟩
  have h := c7_amended.2.1 [(some (.num 1), "A"), (some (.num 2), "A")] (by decide) (by decide)
  rw [h]
  rfl

/- ---------- C3 ---------- -/

/-- Counterexample for C3: the claim says declaring more than 3 missing
criteria (here 3 discrete values plus a range, 4 total) is a fatal
construction error; the code accepts it — `LabelledSPSS.__post_init__`
contains no cardinality check at all. -/
theorem c3_counterexample :
    mkLabelledSPSS [some (.num 1)] none none
        (some [some (.num 1), some (.num 2), some (.num 3)])
        (some (some (.num 4), some (.num 5)))
      = .ok { data := [some (.num 1)], labels := [], label := none,
              na_values := some [.num 1, .num 2, .num 3],
              na_range := some (.num 4, .num 5) } := by
  rfl

/-- Claim C3 amended: construction enforces no cardinality cap: for numeric
data, any list of well-typed discrete missing values together with a
well-formed range is accepted, whatever the total number of criteria (so
2 discrete values plus a range are accepted, and so is a 4th discrete
value). -/
theorem c3_amended (data : List CellV) (label : Option String)
    (nv : List CellV) (lo hi : Value)
    (hd : isNumericSeq data = true)
    (hnv : nv.all cellIsNum = true)
    (hlo : lo.isNum = true) (hhi : hi.isNum = true)
    (hasc : Value.lt lo hi = true) :
    mkLabelledSPSS data none label (some nv) (some (some lo, some hi))
      = .ok { data := data, labels := [], label := label,
              na_values := some (nv.filterMap id),
              na_range := some (lo, hi) } := by
  have hnone : (nv.any fun c => c.isNone) = false := by
    rw [List.any_eq_false]
    intro c hc
    have := List.all_eq_true.mp hnv c hc
    cases c with
    | none => simp [cellIsNum] at this
    | some v => simp
  simp [mkLabelledSPSS, mkLabelled, validateLabelsMatchDataType, normalizeLabels,
    validateNaValues, validateNaRange, hd, hnv, hlo, hhi, hasc, hnone, toDict]

/-- Witness for C3: two discrete values plus a range are accepted, and so
are four discrete values plus a range. -/
theorem c3_witness :
    mkLabelledSPSS [some (.num 1)] none none
        (some [some (.num 1), some (.num 2)])
        (some (some (.num 8), some (.num 9)))
      = .ok { data := [some (.num 1)], labels := [], label := none,
              na_values := some [.num 1, .num 2],
              na_range := some (.num 8, .num 9) }
    ∧ mkLabelledSPSS [some (.num 1)] none none
        (some [some (.num 1), some (.num 2), some (.num 3), some (.num 4)])
        (some (some (.num 8), some (.num 9)))
      = .ok { data := [some (.num 1)], labels := [], label := none,
              na_values := some [.num 1, .num 2, .num 3, .num 4],
              na_range := some (.num 8, .num 9) } :=
  ⟨c3_amended [some (.num 1)] none [some (.num 1), some (.num 2)]
      (.num 8) (.num 9) (by decide) (by decide) (by decide) (by decide) (by decide),
   c3_amended [some (.num 1)] none
      [some (.num 1), some (.num 2), some (.num 3), some (.num 4)]
      (.num 8) (.num 9) (by decide) (by decide) (by decide) (by decide) (by decide)⟩

/- ---------- C4 ---------- -/

theorem lookupD_eq_none_of_not_mem {d : LabelDict} {k : CellV}
    (h : k ∉ keysD d) : lookupD d k = none := by
  induction d with
  | nil => rfl
  | cons p rest ih =>
    obtain ⟨k0, v0⟩ := p
    simp only [keysD, List.map_cons, List.mem_cons, not_or] at h
    simp only [lookupD, if_neg h.1]
    exact ih (by simpa [keysD] using h.2)

theorem lookupD_dictInsert (d : LabelDict) (k k0 : CellV) (v0 : String) :
    lookupD (dictInsert d k0 v0) k = if k = k0 then some v0 else lookupD d k := by
  induction d with
  | nil => simp [dictInsert, lookupD]
  | cons p rest ih =>
    obtain ⟨k1, v1⟩ := p
    by_cases h1 : k1 = k0
    · subst h1
      simp only [dictInsert, if_pos rfl, lookupD]
      by_cases hk : k = k1 <;> simp [hk]
    · have h1' : ¬((k1, v1).1 = k0) := h1
      simp only [dictInsert, if_neg h1', lookupD, ih]
      by_cases hk : k = k1
      · have hk0 : k ≠ k0 := fun he => h1 (hk.symm.trans he)
        simp [hk, hk0, h1]
      · simp [hk]

theorem lookupD_dictUpdate (x : LabelDict) :
    ∀ (y : LabelDict) (k : CellV), (keysD x).Nodup →
      lookupD (dictUpdate y x) k
        = match lookupD x k with
          | some v => some v
          | none => lookupD y k := by
  induction x with
  | nil => intro y k _; rfl
  | cons p xs ih =>
    intro y k hx
    obtain ⟨k0, v0⟩ := p
    have hx2 : ¬ k0 ∈ keysD xs ∧ (keysD xs).Nodup := by
      have := List.nodup_cons.mp (show (k0 :: keysD xs).Nodup by simpa [keysD] using hx)
      exact this
    show lookupD (dictUpdate (dictInsert y k0 v0) xs) k = _
    rw [ih (dictInsert y k0 v0) k hx2.2]
    by_cases hk : k = k0
    · subst hk
      rw [lookupD_eq_none_of_not_mem hx2.1]
      simp [lookupD, lookupD_dictInsert]
    · simp only [lookupD, if_neg hk]
      cases h : lookupD xs k <;> simp [lookupD_dictInsert, hk]

/-- Counterexample for C4: the claim says `merge` returns the union of both
operands; `_combine_labels` with two non-empty dicts returns only the left
operand, dropping code 2 which is present only on the right. -/
theorem c4_counterexample :
    (combineLabelsWarn [(some (.num 1), "A")] [(some (.num 2), "B")]).1
        = [(some (.num 1), "A")]
    ∧ ((keysD (combineLabelsWarn [(some (.num 1), "A")] [(some (.num 2), "B")]).1).contains
        (some (.num 2))) = false := by
  refine ⟨rfl, by rfl⟩

/-- Claim C4 amended: the repository has two merge helpers.
`utils.combine_labels` is the union with the left operand winning on common
codes, but emits no diagnostic.  `labelled._combine_labels` emits the
non-fatal capped conflict diagnostic, but with two non-empty operands it
returns only the left dict (codes only in the right operand are dropped);
when one operand is empty the other is returned.  Neither helper can fail. -/
theorem c4_amended :
    (∀ (x y : LabelDict) (k : CellV), (keysD x).Nodup →
        lookupD (combineLabelsU x y) k
          = match lookupD x k with
            | some v => some v
            | none => lookupD y k)
    ∧ (∀ x y : LabelDict, x ≠ [] → y ≠ [] → (combineLabelsWarn x y).1 = x)
    ∧ (∀ x : LabelDict, (combineLabelsWarn x []).1 = x)
    ∧ (∀ y : LabelDict, y ≠ [] → (combineLabelsWarn [] y).1 = y)
    ∧ (∀ x y : LabelDict, x ≠ [] → y ≠ [] →
        ((combineLabelsWarn x y).2 = none ↔ conflictsOf x y = []))
    ∧ (∀ (x y : LabelDict) (d : ConflictDiag), x ≠ [] → y ≠ [] →
        (combineLabelsWarn x y).2 = some d →
        d.listed.length ≤ 3
        ∧ ((conflictsOf x y).length ≤ 3 → d.listed = conflictsOf x y ∧ d.total = none)
        ∧ (3 < (conflictsOf x y).length →
            d.listed = (conflictsOf x y).take 2
            ∧ d.total = some (conflictsOf x y).length)) := by
  refine ⟨?_, ?_, ?_, ?_, ?_, ?_⟩
  · intro x y k hx
    unfold combineLabelsU
    by_cases hxe : x = []
    · subst hxe
      by_cases hye : y = [] <;> simp [hye, lookupD]
    · have hxe' : x.isEmpty = false := by simp [List.isEmpty_iff, hxe]
      by_cases hye : y = []
      · subst hye
        simp only [hxe', Bool.false_eq_true, if_false, List.isEmpty_nil, if_true]
        cases h : lookupD x k <;> simp [lookupD]
      · have hye' : y.isEmpty = false := by simp [List.isEmpty_iff, hye]
        simp only [hxe', hye', Bool.false_eq_true, if_false]
        exact lookupD_dictUpdate x y k hx
  · intro x y hx hy
    simp [combineLabelsWarn, List.isEmpty_iff, hx, hy]
  · intro x
    simp [combineLabelsWarn]
  · intro y hy
    simp [combineLabelsWarn, List.isEmpty_iff, hy]
  · intro x y hx hy
    simp only [combineLabelsWarn, List.isEmpty_iff, hx, hy, if_false]
    by_cases hc : conflictsOf x y = []
    · simp [hc]
    · by_cases hlen : (conflictsOf x y).length ≤ 3 <;> simp [hc, hlen]
  · intro x y d hx hy hd
    simp only [combineLabelsWarn, List.isEmpty_iff, hx, hy, if_false] at hd
    by_cases hc : conflictsOf x y = []
    · simp [hc] at hd
    · by_cases hlen : (conflictsOf x y).length ≤ 3
      · simp only [hc, if_false, hlen, if_true] at hd
        cases hd
        exact ⟨hlen, fun _ => ⟨rfl, rfl⟩, fun hgt => absurd hlen (by omega)⟩
      · simp only [hc, if_false, hlen, if_true] at hd
        cases hd
        refine ⟨?_, fun hle => absurd hle hlen, fun _ => ⟨rfl, rfl⟩⟩
        calc ((conflictsOf x y).take 2).length ≤ 2 := by
              simp [List.length_take]
          _ ≤ 3 := by omega

/-- Witness for C4: the spec's own merge scenario, on both helpers. -/
theorem c4_witness :
    lookupD (combineLabelsU [(some (.num 1), "Good"), (some (.num 5), "Bad")]
        [(some (.num 1), "Bad"), (some (.num 5), "Good")]) (some (.num 1)) = some "Good"
    ∧ (combineLabelsWarn [(some (.num 1), "Good"), (some (.num 5), "Bad")]
        [(some (.num 1), "Bad"), (some (.num 5), "Good")]).1
        = [(some (.num 1), "Good"), (some (.num 5), "Bad")]
    ∧ ((combineLabelsWarn [(some (.num 1), "Good"), (some (.num 5), "Bad")]
        [(some (.num 1), "Bad"), (some (.num 5), "Good")]).2 = none
        ↔ conflictsOf [(some (.num 1), "Good"), (some (.num 5), "Bad")]
            [(some (.num 1), "Bad"), (some (.num 5), "Good")] = []) := by
  refine ⟨?_, ?_, ?_⟩
  · have h := c4_amended.1 [(some (.num 1), "Good"), (some (.num 5), "Bad")]
      [(some (.num 1), "Bad"), (some (.num 5), "Good")] (some (.num 1)) (by decide)
    rw [h]
    rfl
  · exact c4_amended.2.1 _ _ (by decide) (by decide)
  · exact c4_amended.2.2.2.2.1 _ _ (by decide) (by decide)

/- ---------- C2 ---------- -/

/- Inversion lemmas for the constructors, shared by the cast (C2) and
concat (C10) developments. -/

theorem mkLabelled_ok_inv {d : List CellV} {l : Option RawLabels}
    {lbl : Option String} {x : LabelledV} (h : mkLabelled d l lbl = .ok x) :
    x.data = d ∧ x.label = lbl := by
  unfold mkLabelled at h
  cases hb : (!(isNumericSeq d || isStringSeq d)) with
  | true => rw [hb] at h; simp at h
  | false =>
    rw [hb] at h
    simp only [Bool.false_eq_true, if_false] at h
    cases hv : validateLabelsMatchDataType d l with
    | error e => rw [hv] at h; cases h
    | ok u =>
      rw [hv] at h
      cases hn : normalizeLabels l with
      | error e => rw [hn] at h; cases h
      | ok p =>
        obtain ⟨dict, warns⟩ := p
        rw [hn] at h
        cases h
        exact ⟨rfl, rfl⟩

theorem mkLabelledSPSS_ok_inv {d : List CellV} {l : Option RawLabels}
    {lbl : Option String} {nv : Option (List CellV)}
    {nr : Option (Option Value × Option Value)} {x : LabelledSPSSV}
    (h : mkLabelledSPSS d l lbl nv nr = .ok x) :
    x.data = d ∧ x.label = lbl
    ∧ validateNaValues d nv = .ok x.na_values
    ∧ validateNaRange d nr = .ok x.na_range := by
  unfold mkLabelledSPSS at h
  cases hb : mkLabelled d l lbl with
  | error e => rw [hb] at h; cases h
  | ok base =>
    rw [hb] at h
    cases hnv : validateNaValues d nv with
    | error e => rw [hnv] at h; cases h
    | ok nvv =>
      rw [hnv] at h
      cases hnr : validateNaRange d nr with
      | error e => rw [hnr] at h; cases h
      | ok nrr =>
        rw [hnr] at h
        cases h
        obtain ⟨hd, hl⟩ := mkLabelled_ok_inv hb
        exact ⟨hd, hl, rfl, rfl⟩

theorem map_some_filterMap_id (l : List Value) : (l.map some).filterMap id = l := by
  induction l with
  | nil => rfl
  | cons a t ih => simp [ih]

theorem validateNaValues_conv {d : List CellV} {nv0 v : Option (List Value)}
    (h : validateNaValues d (nv0.map (fun l => l.map some)) = .ok v) : v = nv0 := by
  cases nv0 with
  | none => cases h; rfl
  | some l =>
    simp only [Option.map_some', validateNaValues] at h
    by_cases h1 : ((l.map some).any fun c => c.isNone) = true
    · rw [if_pos h1] at h
      cases h
    · rw [if_neg h1] at h
      by_cases h2 : isNumericSeq d = true
      · rw [if_pos h2] at h
        by_cases h3 : ((l.map some).all cellIsNum) = true
        · rw [if_pos h3] at h
          cases h
          simp [map_some_filterMap_id]
        · rw [if_neg h3] at h
          cases h
      · rw [if_neg h2] at h
        by_cases h3 : ((l.map some).all cellIsStr) = true
        · rw [if_pos h3] at h
          cases h
          simp [map_some_filterMap_id]
        · rw [if_neg h3] at h
          cases h

theorem validateNaRange_conv {d : List CellV} {nr0 v : Option (Value × Value)}
    (h : validateNaRange d (nr0.map (fun p => (some p.1, some p.2))) = .ok v) :
    v = nr0 := by
  cases nr0 with
  | none => cases h; rfl
  | some p =>
    obtain ⟨lo, hi⟩ := p
    simp only [Option.map_some', validateNaRange] at h
    by_cases h2 : isNumericSeq d = true
    · rw [if_pos h2] at h
      by_cases h3 : (lo.isNum && hi.isNum) = true
      · rw [if_pos h3] at h
        by_cases h4 : Value.lt lo hi = true
        · rw [if_pos h4] at h
          cases h
          rfl
        · rw [if_neg h4] at h
          cases h
      · rw [if_neg h3] at h
        cases h
    · rw [if_neg h2] at h
      by_cases h3 : (lo.isStr && hi.isStr) = true
      · rw [if_pos h3] at h
        by_cases h4 : Value.lt lo hi = true
        · rw [if_pos h4] at h
          cases h
          rfl
        · rw [if_neg h4] at h
          cases h
      · rw [if_neg h3] at h
        cases h

theorem lookupD_some_mem {d : LabelDict} {k : CellV} {s : String}
    (h : lookupD d k = some s) : (k, s) ∈ d := by
  induction d with
  | nil => cases h
  | cons p rest ih =>
    obtain ⟨k0, v0⟩ := p
    by_cases hk : k = k0
    · subst hk
      have h' : v0 = s := by simpa [lookupD] using h
      subst h'
      exact List.mem_cons_self _ _
    · simp only [lookupD, if_neg hk] at h
      exact List.mem_cons_of_mem _ (ih h)

/-- `dict(items)` appends a pair whose key is fresh. -/
theorem dictInsert_of_not_mem {d : LabelDict} {k : CellV} (v : String)
    (h : k ∉ keysD d) : dictInsert d k v = d ++ [(k, v)] := by
  induction d with
  | nil => rfl
  | cons p rest ih =>
    obtain ⟨k1, v1⟩ := p
    simp only [keysD, List.map_cons, List.mem_cons, not_or] at h
    have hne : ¬((k1, v1).1 = k) := fun he => h.1 he.symm
    simp only [dictInsert, if_neg hne, List.cons_append]
    rw [ih (by simpa [keysD] using h.2)]

/-- Folding `dict(items)` insertions over an accumulator whose keys are
disjoint from the (duplicate-free) item keys just appends the items. -/
theorem foldl_dictInsert_append (items : List (CellV × String)) :
    ∀ acc : LabelDict, (keysD items).Nodup →
      (∀ k ∈ keysD items, k ∉ keysD acc) →
      items.foldl (fun d p => dictInsert d p.1 p.2) acc = acc ++ items := by
  induction items with
  | nil => intro acc _ _; simp
  | cons p rest ih =>
    intro acc hnd hdisj
    obtain ⟨k0, v0⟩ := p
    have hk0acc : k0 ∉ keysD acc := hdisj k0 (by simp [keysD])
    have hnd2 : ¬ k0 ∈ keysD rest ∧ (keysD rest).Nodup := by
      have := List.nodup_cons.mp
        (show (k0 :: keysD rest).Nodup by simpa [keysD] using hnd)
      exact this
    show rest.foldl _ (dictInsert acc k0 v0) = acc ++ (k0, v0) :: rest
    rw [dictInsert_of_not_mem v0 hk0acc]
    rw [ih (acc ++ [(k0, v0)]) hnd2.2 ?_]
    · simp
    · intro k hk
      have hkacc : k ∉ keysD acc := hdisj k (by simp [keysD]; right; simpa [keysD] using hk)
      have hkne : k ≠ k0 := fun he => hnd2.1 (he ▸ hk)
      simp only [keysD, List.map_append, List.mem_append, not_or]
      exact ⟨by simpa [keysD] using hkacc, by simp [hkne]⟩

/-- On a dict with unique keys (the invariant of every real Python dict,
in particular of every validated label dict), `dict(items)` is the
identity. -/
theorem toDict_eq_self {d : LabelDict} (h : (keysD d).Nodup) : toDict d = d := by
  have := foldl_dictInsert_append d [] h (by intro k _; simp [keysD])
  simpa [toDict] using this

/-- When `Labelled` construction from a dict succeeds, the stored labels
are `dict(items)` (the normalized copy `_normalize_labels` returns). -/
theorem mkLabelled_ok_labels_dict {d : List CellV} {items : List (CellV × String)}
    {lbl : Option String} {x : LabelledV}
    (h : mkLabelled d (some (.dictL items)) lbl = .ok x) :
    x.labels = toDict items := by
  unfold mkLabelled at h
  cases hb : (!(isNumericSeq d || isStringSeq d)) with
  | true => rw [hb] at h; simp at h
  | false =>
    rw [hb] at h
    simp only [Bool.false_eq_true, if_false] at h
    cases hv : validateLabelsMatchDataType d (some (.dictL items)) with
    | error e => rw [hv] at h; cases h
    | ok u =>
      rw [hv] at h
      cases hn : normalizeLabels (some (.dictL items)) with
      | error e => rw [hn] at h; cases h
      | ok p =>
        obtain ⟨dict, warns⟩ := p
        rw [hn] at h
        cases h
        simp only [normalizeLabels, RawLabels.items] at hn
        by_cases hdup : hasDup ((items.map (·.1)).filterMap id) = true
        · rw [if_pos hdup] at hn
          cases hn
        · rw [if_neg hdup] at hn
          cases hn
          rfl

/-- Lift of `mkLabelled_ok_labels_dict` through the `LabelledSPSS`
constructor. -/
theorem mkLabelledSPSS_ok_labels_dict {d : List CellV}
    {items : List (CellV × String)} {lbl : Option String}
    {nv : Option (List CellV)} {nr : Option (Option Value × Option Value)}
    {x : LabelledSPSSV}
    (h : mkLabelledSPSS d (some (.dictL items)) lbl nv nr = .ok x) :
    x.labels = toDict items := by
  unfold mkLabelledSPSS at h
  cases hb : mkLabelled d (some (.dictL items)) lbl with
  | error e => rw [hb] at h; cases h
  | ok base =>
    rw [hb] at h
    cases hnv : validateNaValues d nv with
    | error e => rw [hnv] at h; cases h
    | ok nvv =>
      rw [hnv] at h
      cases hnr : validateNaRange d nr with
      | error e => rw [hnr] at h; cases h
      | ok nrr =>
        rw [hnr] at h
        cases h
        exact mkLabelled_ok_labels_dict hb

/-- Counterexample for C2: (left) the source labels code 5 as "A", the
template labels the same code "B"; the claim says `cast_to` must fail with
`LossyCast`, but the code only compares key sets and succeeds.  (middle)
the template dict is a superset of the source dict (both empty), yet
`cast_to` fails because the in-use value 9 is user-missing only at the
source.  (right) again a superset dict (source labels empty), yet
`cast_to` raises `TypeError` because the result's dataclass re-validation
rejects the template's character-keyed labels against the numeric source
data — the claim says a superset dictionary always succeeds. -/
theorem c2_counterexample :
    isOkE (castTo
        { data := [some (.num 5)], labels := [(some (.num 5), "A")],
          label := none, na_values := none, na_range := none }
        { data := [], labels := [(some (.num 5), "B")],
          label := none, na_values := none, na_range := none }) = true
    ∧ castTo
        { data := [some (.num 9)], labels := [], label := none,
          na_values := some [.num 9], na_range := none }
        { data := [], labels := [], label := none,
          na_values := none, na_range := none }
      = .error (.lossyMissing (.num 9))
    ∧ castTo
        { data := [some (.num 1)], labels := [], label := none,
          na_values := none, na_range := none }
        { data := [some (.str "a")], labels := [(some (.str "a"), "X")],
          label := none, na_values := none, na_range := none }
      = .error (.constructorRaise "labels must be the same type as data (numeric)") := by
  exact ⟨rfl, rfl, rfl⟩

/-- Claim C2 amended: `cast_to` fails with `LossyCast` whenever some value
present in the source data has a label code in the source dict that is
absent (as a key, regardless of mapped string) from the template dict; and
when every source label pair also appears in the template dict (superset
with the same strings), every in-use source user-missing classification is
preserved by the template's specs, and the result's dataclass
re-validation succeeds (the constructor re-runs `__post_init__` and can
raise, e.g. for a template whose labels or specs mismatch the source
data's type), `cast_to` succeeds with the source data unchanged, the
template's labels, and all in-use mappings preserved. -/
theorem c2_amended (self template : LabelledSPSSV) :
    (self.labels ≠ [] →
      ∀ v : CellV, v ∈ self.data → v ∈ keysD self.labels →
        v ∉ keysD template.labels →
        ∃ w, castTo self template = .error (.lossyLabel w))
    ∧ ((keysD template.labels).Nodup →
       (self.labels.all fun p => lookupD template.labels p.1 == some p.2) = true →
       (self.data.all fun c => match c with
          | none => true
          | some v => !(isMissingIn v self.na_values self.na_range)
              || isMissingIn v template.na_values template.na_range) = true →
       ∀ x : LabelledSPSSV,
         mkLabelledSPSS self.data (some (.dictL template.labels))
             (castResultLabel self template)
             (template.na_values.map (fun l => l.map some))
             (template.na_range.map (fun p => (some p.1, some p.2))) = .ok x →
         castTo self template = .ok x
         ∧ x.data = self.data ∧ x.labels = template.labels
         ∧ x.na_values = template.na_values ∧ x.na_range = template.na_range
         ∧ (∀ (v : CellV) (s : String), v ∈ self.data →
              lookupD self.labels v = some s → lookupD x.labels v = some s)) := by
  constructor
  · intro hne v hvdata hvkeys hvnot
    have hvrem : v ∈ removedKeys self template := by
      unfold removedKeys
      have hne2 : self.labels.isEmpty = false := by simp [List.isEmpty_iff, hne]
      rw [hne2]
      simp only [Bool.not_false, if_true]
      refine List.mem_filter.mpr ⟨hvkeys, ?_⟩
      simpa using hvnot
    have hrem : (removedKeys self template).isEmpty = false := by
      cases hrm : removedKeys self template with
      | nil => rw [hrm] at hvrem; cases hvrem
      | cons a l => simp
    have hpred : (fun c => !((removedKeys self template).isEmpty)
        && (removedKeys self template).contains c) v = true := by
      simp [hrem, hvrem]
    have hsome : (self.data.find? (fun c => !((removedKeys self template).isEmpty)
        && (removedKeys self template).contains c)).isSome := by
      rw [List.find?_isSome]
      exact ⟨v, hvdata, hpred⟩
    obtain ⟨w, hw⟩ := Option.isSome_iff_exists.mp hsome
    refine ⟨w, ?_⟩
    unfold castTo
    rw [hw]
  · intro hnod hlab hmiss x hmk
    have hrem : removedKeys self template = [] := by
      unfold removedKeys
      cases hne : self.labels.isEmpty with
      | true => simp
      | false =>
        simp only [Bool.not_false, if_true]
        rw [List.filter_eq_nil]
        intro k hk
        obtain ⟨⟨k2, s⟩, hmem, hkeq⟩ := List.mem_map.mp hk
        subst hkeq
        have := List.all_eq_true.mp hlab _ hmem
        have hlk : lookupD template.labels k2 = some s := by simpa using this
        have : k2 ∈ keysD template.labels :=
          List.mem_map.mpr ⟨(k2, s), lookupD_some_mem hlk, rfl⟩
        simp [this]
    have hfind1 : self.data.find? (fun c => !((removedKeys self template).isEmpty)
        && (removedKeys self template).contains c) = none := by
      rw [List.find?_eq_none]
      intro c _
      simp [hrem]
    have hfind2 : self.data.find? (lossyMissingCell self template) = none := by
      rw [List.find?_eq_none]
      intro c hc
      have := List.all_eq_true.mp hmiss c hc
      cases c with
      | none => simp [lossyMissingCell]
      | some v =>
        simp only [lossyMissingCell]
        simp only [Bool.or_eq_true, Bool.not_eq_true'] at this
        rcases this with h | h
        · simp [h]
        · simp [h]
    have hlabels : x.labels = template.labels := by
      rw [mkLabelledSPSS_ok_labels_dict hmk]
      exact toDict_eq_self hnod
    obtain ⟨hdata, _hlbl, hnv, hnr⟩ := mkLabelledSPSS_ok_inv hmk
    refine ⟨?_, hdata, hlabels, validateNaValues_conv hnv,
      validateNaRange_conv hnr, ?_⟩
    · unfold castTo
      rw [hfind1, hfind2, hmk]
    · intro v s hvdata hvs
      have hpair := lookupD_some_mem hvs
      have := List.all_eq_true.mp hlab _ hpair
      rw [hlabels]
      simpa using this

/-- Witness for C2: a concrete cast to a same-strings superset dictionary
succeeds unchanged with the re-validation hypothesis discharged by
computation (right part of the amended claim), and a concrete cast
dropping an in-use code fails (left part). -/
theorem c2_witness :
    castTo
        { data := [some (.num 1)], labels := [(some (.num 1), "G")],
          label := none, na_values := none, na_range := none }
        { data := [], labels := [(some (.num 1), "G"), (some (.num 5), "B")],
          label := none, na_values := none, na_range := none }
      = .ok { data := [some (.num 1)],
              labels := [(some (.num 1), "G"), (some (.num 5), "B")],
              label := none, na_values := none, na_range := none }
    ∧ ∃ w, castTo
        { data := [some (.num 1)], labels := [(some (.num 1), "G")],
          label := none, na_values := none, na_range := none }
        { data := [], labels := [(some (.num 7), "Z")],
          label := none, na_values := none, na_range := none }
      = .error (.lossyLabel w) := by
  constructor
  · exact ((c2_amended
      { data := [some (.num 1)], labels := [(some (.num 1), "G")],
        label := none, na_values := none, na_range := none }
      { data := [], labels := [(some (.num 1), "G"), (some (.num 5), "B")],
        label := none, na_values := none, na_range := none }).2
      (by decide) (by rfl) (by rfl)
      { data := [some (.num 1)],
        labels := [(some (.num 1), "G"), (some (.num 5), "B")],
        label := none, na_values := none, na_range := none }
      (by rfl)).1
  · exact (c2_amended
      { data := [some (.num 1)], labels := [(some (.num 1), "G")],
        label := none, na_values := none, na_range := none }
      { data := [], labels := [(some (.num 7), "Z")],
        label := none, na_values := none, na_range := none }).1
      (by decide) (some (.num 1)) (by decide) (by decide) (by decide)

/- ---------- C8 ---------- -/

/-- Counterexample for C8: the claim says encoding a text column containing
an interior NUL to ANY target dialect fails before the native writer is
invoked; on the SPSS path, `write_sav` runs all its pre-native validation
successfully on such a table (there is no NUL scan), so the native writer
is reached. -/
theorem c8_counterexample :
    columnsWithInteriorNul [{ name := "a", col := .text [some "aa\x00bb"] }] = ["a"]
    ∧ writeSavPreNative [{ name := "a", col := .text [some "aa\x00bb"] }] "byte"
        = .ok [{ name := "a", col := .text [some "aa\x00bb"] }] := by
  exact ⟨rfl, rfl⟩

/-- Claim C8 amended: only the Stata writer performs the interior-NUL scan:
when its earlier validations pass and some text column contains an embedded
NUL, `write_dta` fails before the native writer is invoked, naming exactly
the offending columns; `write_sav`, by contrast, performs no NUL check —
whenever its name validation passes (and `compress` is legal) the native
writer is reached regardless of NUL content. -/
theorem c8_amended :
    (∀ (df : List DFCol) (vh : ℤ) (fl : Option String) (t : ℤ),
        validateDtaNamesAndLabels df vh fl = .ok () →
        ensureStrlPolicy df vh t = .ok () →
        columnsWithInteriorNul df ≠ [] →
        writeDtaPreNative df vh fl t = .error (.interiorNul (columnsWithInteriorNul df)))
    ∧ (∀ (df : List DFCol) (compress : String),
        (compress = "byte" ∨ compress = "none" ∨ compress = "zsav") →
        validateSavGo [] (df.map (·.name)) = .ok () →
        writeSavPreNative df compress = .ok df) := by
  constructor
  · intro df vh fl t h1 h2 hnul
    unfold writeDtaPreNative
    rw [h1, h2]
    have : (columnsWithInteriorNul df).isEmpty = false := by
      simp [List.isEmpty_iff, hnul]
    simp [this]
  · intro df compress hc hv
    unfold writeSavPreNative
    have : (compress = "byte" || compress = "none" || compress = "zsav") = true := by
      rcases hc with h | h | h <;> simp [h]
    rw [this]
    simp only [Bool.not_true, Bool.false_eq_true, if_false, hv]

/-- Witness for C8 on the NUL-carrying table: the Stata path errors naming
the column before the native writer, the SPSS path reaches it. -/
theorem c8_witness :
    writeDtaPreNative [{ name := "a", col := .text [some "aa\x00bb"] }] 15 none 2045
      = .error (.interiorNul ["a"])
    ∧ writeSavPreNative [{ name := "a", col := .text [some "aa\x00bb"] }] "zsav"
      = .ok [{ name := "a", col := .text [some "aa\x00bb"] }] := by
  constructor
  · have h := c8_amended.1 [{ name := "a", col := .text [some "aa\x00bb"] }] 15 none 2045
      (by rfl) (by rfl) (by intro hcon; cases hcon)
    simpa using h
  · exact c8_amended.2 [{ name := "a", col := .text [some "aa\x00bb"] }] "zsav"
      (Or.inr (Or.inr rfl)) (by rfl)

/- ---------- C10 ---------- -/

/-- Counterexample for C10: the claim says `concat` of any non-empty list
of `LabelledSPSS` vectors returns a concatenated vector; both inputs here
are individually constructible (first two conjuncts), but one is numeric
and one is character, so the concatenated result fails re-validation and
`concat` raises instead of returning. -/
theorem c10_counterexample :
    mkLabelledSPSS [some (.num 1)] none none none none
      = .ok { data := [some (.num 1)], labels := [], label := none,
              na_values := none, na_range := none }
    ∧ mkLabelledSPSS [some (.str "a")] none none none none
      = .ok { data := [some (.str "a")], labels := [], label := none,
              na_values := none, na_range := none }
    ∧ isOkE (concatV
        [{ data := [some (.num 1)], labels := [], label := none,
           na_values := none, na_range := none },
         { data := [some (.str "a")], labels := [], label := none,
           na_values := none, na_range := none }]) = false := by
  exact ⟨rfl, rfl, rfl⟩

/-- Claim C10 amended: whenever `concat` of a non-empty list of
`LabelledSPSS` vectors returns (rather than raising on re-validation, e.g.
for mixed numeric/character inputs), the result's data is the concatenation
of all inputs' data in order and its variable label is the first vector's;
it is a `LabelledSPSS` carrying the first vector's `na_values`/`na_range`
exactly when every vector's specs equal the first vector's, and otherwise a
plain `Labelled` with no user-missing specification. -/
theorem c10_amended (first : LabelledSPSSV) (rest : List LabelledSPSSV)
    (r : ConcatResult) (h : concatV (first :: rest) = .ok r) :
    (match r with
     | .spss x =>
         x.data = (((first :: rest).map (·.data)).flatten)
         ∧ x.label = first.label
         ∧ x.na_values = first.na_values ∧ x.na_range = first.na_range
         ∧ ((((first :: rest) : List LabelledSPSSV).all
              fun v => v.na_values == first.na_values)
            && (((first :: rest) : List LabelledSPSSV).all
              fun v => v.na_range == first.na_range)) = true
     | .plain x =>
         x.data = (((first :: rest).map (·.data)).flatten)
         ∧ x.label = first.label
         ∧ ((((first :: rest) : List LabelledSPSSV).all
              fun v => v.na_values == first.na_values)
            && (((first :: rest) : List LabelledSPSSV).all
              fun v => v.na_range == first.na_range)) = false) := by
  simp only [concatV] at h
  cases hm : (((first :: rest) : List LabelledSPSSV).all
      fun v => v.na_values == first.na_values) with
  | false =>
    rw [hm] at h
    simp only [Bool.not_false, Bool.true_or, if_true] at h
    cases hmk : mkLabelled (((first :: rest).map (·.data)).flatten)
        (some (.dictL (rest.foldl (fun acc v =>
          if !(v.labels.isEmpty) then (combineLabelsWarn acc v.labels).1 else acc)
          first.labels))) first.label with
    | error e => rw [hmk] at h; cases h
    | ok x =>
      rw [hmk] at h
      cases h
      obtain ⟨hd, hl⟩ := mkLabelled_ok_inv hmk
      exact ⟨hd, hl, by simp [hm]⟩
  | true =>
    rw [hm] at h
    cases hr2 : (((first :: rest) : List LabelledSPSSV).all
        fun v => v.na_range == first.na_range) with
    | false =>
      rw [hr2] at h
      simp only [Bool.not_false, Bool.not_true, Bool.false_or, if_true] at h
      cases hmk : mkLabelled (((first :: rest).map (·.data)).flatten)
          (some (.dictL (rest.foldl (fun acc v =>
            if !(v.labels.isEmpty) then (combineLabelsWarn acc v.labels).1 else acc)
            first.labels))) first.label with
      | error e => rw [hmk] at h; cases h
      | ok x =>
        rw [hmk] at h
        cases h
        obtain ⟨hd, hl⟩ := mkLabelled_ok_inv hmk
        exact ⟨hd, hl, by simp [hr2]⟩
    | true =>
      rw [hr2] at h
      simp only [Bool.not_true, Bool.or_self, Bool.false_eq_true, if_false] at h
      cases hmk : mkLabelledSPSS (((first :: rest).map (·.data)).flatten)
          (some (.dictL (rest.foldl (fun acc v =>
            if !(v.labels.isEmpty) then (combineLabelsWarn acc v.labels).1 else acc)
            first.labels))) first.label
          (first.na_values.map (fun l => l.map some))
          (first.na_range.map (fun p => (some p.1, some p.2))) with
      | error e => rw [hmk] at h; cases h
      | ok x =>
        rw [hmk] at h
        cases h
        obtain ⟨hd, hl, hnv, hnr⟩ := mkLabelledSPSS_ok_inv hmk
        exact ⟨hd, hl, (validateNaValues_conv hnv).symm ▸ rfl,
          (validateNaRange_conv hnr).symm ▸ rfl, by simp [hm, hr2]⟩

/-- Witness for C10: two concrete numeric vectors with identical specs
concatenate into a `LabelledSPSS` with those specs; the amended theorem's
hypothesis is discharged by computing `concat`. -/
theorem c10_witness :
    ({ data := [some (.num 1), some (.num 2)], labels := [], label := none,
       na_values := some [.num 9], na_range := none } : LabelledSPSSV).data
        = (([{ data := [some (.num 1)], labels := [], label := some "L",
               na_values := some [.num 9], na_range := none },
             { data := [some (.num 2)], labels := [], label := none,
               na_values := some [.num 9], na_range := none }]
            : List LabelledSPSSV).map (·.data)).flatten
    ∧ ({ data := [some (.num 1), some (.num 2)], labels := [], label := some "L",
         na_values := some [.num 9], na_range := none } : LabelledSPSSV).label
        = some "L" := by
  have h := c10_amended
    { data := [some (.num 1)], labels := [], label := some "L",
      na_values := some [.num 9], na_range := none }
    [{ data := [some (.num 2)], labels := [], label := none,
       na_values := some [.num 9], na_range := none }]
    (.spss { data := [some (.num 1), some (.num 2)], labels := [],
             label := some "L", na_values := some [.num 9], na_range := none })
    (by rfl)
  exact ⟨h.1, h.2.1⟩

end SvyIO
